import Mathlib

/-!
Verification of the asynchronous job dispatch and result-correlation
subsystem of the doc-converter repository.

The embedding follows the Go source:
  - server/server.go: conversionHandler, listenForResults, downloadHandler,
    with the connection registry (the clients map guarded by clientsMutex)
    modelled as an association list from job identifier to a connection handle,
  - cmd/worker/main.go: the worker consumption loop and publishResults.
External effects (websocket writes, queue publishes, filesystem checks) are
modelled by explicit outcome parameters and by event traces, in program order.
-/

/-- Request body of a submission message, from ConversionRequest in
server/server.go: fields urls and selector. -/
structure ConversionRequest where
  urls : List String
  selector : String
deriving DecidableEq

/-- Payload published to the job queue, from ConversionJob in pkg/queue as
used at server/server.go line 167 and cmd/worker/main.go line 64: fields
urls, selector and download identifier. -/
structure ConversionJob where
  urls : List String
  selector : String
  downloadID : String
deriving DecidableEq

/-- Terminal per-job outcome record, from Summary in pkg/converter as used by
listenForResults and the worker: download identifier, counts, failed URLs and
processing time. -/
structure Summary where
  downloadID : String
  totalURLs : Nat
  successful : Nat
  failed : Nat
  failedURLs : List String
  processingTime : String
deriving DecidableEq

/-- Lookup in an association list keyed by strings; models a read of a Go map
such as the clients registry. -/
def lookupAssoc {α : Type} : List (String × α) → String → Option α
  | [], _ => none
  | (k, v) :: rest, key => if k = key then some v else lookupAssoc rest key

/-- Insertion into the registry; models the map assignment
clients[downloadID] = conn in conversionHandler. -/
def insertAssoc {α : Type} (l : List (String × α)) (key : String) (v : α) :
    List (String × α) :=
  (key, v) :: l

/-- Removal from the registry; models delete(clients, id). -/
def removeAssoc {α : Type} : List (String × α) → String → List (String × α)
  | [], _ => []
  | (k, v) :: rest, key =>
      if k = key then removeAssoc rest key else (k, v) :: removeAssoc rest key

/-- Result of json.Unmarshal on the one message read from the websocket in
conversionHandler: either a failure or a ConversionRequest. -/
inductive WsMessage
  | malformed
  | parsed (req : ConversionRequest)
deriving DecidableEq

/-- The initial log object written back after a successful enqueue, from
server/server.go lines 181 to 184: fields log and level. -/
structure AckMessage where
  log : String
  level : String
deriving DecidableEq

/-- The concrete acknowledgment object built by conversionHandler. -/
def ackMessage (downloadID : String) : AckMessage :=
  { log := "Job successfully queued with ID: " ++ downloadID ++ ". Waiting for worker...",
    level := "info" }

/-- Externally visible actions of conversionHandler, in program order. -/
inductive GwEvent
  | sentTextError (msg : String)
  | registered (jobId : String)
  | published (job : ConversionJob)
  | sentCloseError
  | sentAck (msg : AckMessage)
deriving DecidableEq

/-- Embedding of conversionHandler from server/server.go lines 132 to 189,
after a successful upgrade and read. Inputs: the current clients registry,
the connection handle, the unmarshal result of the read message, the fresh
uuid string, and whether rabbitMQClient.PublishJob succeeds. Output: the
registry after the handler returns, and the trace of its actions. On
unmarshal failure a text error is written and the handler returns; otherwise
the connection is registered, the job is built and published; on publish
failure a close frame is written and the handler returns; on success the
acknowledgment object is written. -/
def conversionHandler (clients : List (String × Nat)) (conn : Nat)
    (msg : WsMessage) (downloadID : String) (publishOk : Bool) :
    List (String × Nat) × List GwEvent :=
  match msg with
  | WsMessage.malformed =>
      (clients, [GwEvent.sentTextError "Error: Invalid request format"])
  | WsMessage.parsed req =>
      let clients1 := insertAssoc clients downloadID conn
      let job : ConversionJob :=
        { urls := req.urls, selector := req.selector, downloadID := downloadID }
      if publishOk then
        (clients1,
         [GwEvent.registered downloadID, GwEvent.published job,
          GwEvent.sentAck (ackMessage downloadID)])
      else
        (clients1, [GwEvent.registered downloadID, GwEvent.sentCloseError])

/-- Scans a gateway trace keeping the set of registered job identifiers and
checks that every published job was registered earlier in the trace. -/
def publishedAfterRegistered : List String → List GwEvent → Bool
  | _, [] => true
  | regs, GwEvent.registered i :: rest => publishedAfterRegistered (i :: regs) rest
  | regs, GwEvent.published j :: rest =>
      regs.contains j.downloadID && publishedAfterRegistered regs rest
  | regs, _ :: rest => publishedAfterRegistered regs rest

/-- Result of json.Unmarshal on a delivery received from the results fanout
queue in listenForResults: a failure or a Summary. -/
inductive ResultMessage
  | malformed
  | parsed (summary : Summary)
deriving DecidableEq

/-- The completion object built in listenForResults lines 118 to 122: status
completed, the summary, and the download URL embedding the job identifier. -/
structure FinalResponse where
  status : String
  summary : Summary
  downloadURL : String
deriving DecidableEq

/-- The concrete completion object for a summary. -/
def finalResponse (summary : Summary) : FinalResponse :=
  { status := "completed", summary := summary,
    downloadURL := "/api/download/" ++ summary.downloadID }

/-- Externally visible actions of one iteration of the result listener. The
wroteCompletion event records the WriteJSON attempt and whether it succeeded. -/
inductive ResEvent
  | loggedUnmarshalError
  | wroteCompletion (jobId : String) (conn : Nat) (msg : FinalResponse) (ok : Bool)
  | removedEntry (jobId : String)
deriving DecidableEq

/-- Embedding of one iteration of the consumption loop in listenForResults,
server/server.go lines 107 to 129: on unmarshal failure log and continue; on
success look up the download identifier in the clients registry under the
lock; if present, attempt to write the completion object (success or failure
recorded by writeOk) and delete the entry either way; if absent, do
nothing. -/
def listenStep (clients : List (String × Nat)) (msg : ResultMessage)
    (writeOk : Bool) : List (String × Nat) × List ResEvent :=
  match msg with
  | ResultMessage.malformed => (clients, [ResEvent.loggedUnmarshalError])
  | ResultMessage.parsed summary =>
      match lookupAssoc clients summary.downloadID with
      | some conn =>
          (removeAssoc clients summary.downloadID,
           [ResEvent.wroteCompletion summary.downloadID conn (finalResponse summary) writeOk,
            ResEvent.removedEntry summary.downloadID])
      | none => (clients, [])

/-- Number of write attempts for a given job identifier in a listener trace. -/
def countWrites (key : String) : List ResEvent → Nat
  | [] => 0
  | ResEvent.wroteCompletion j _ _ _ :: rest =>
      (if j = key then 1 else 0) + countWrites key rest
  | _ :: rest => countWrites key rest

/-- The whole listener loop over a list of deliveries, threading the registry
and concatenating the traces, as the for range msgs loop does. -/
def listenLoop : List (String × Nat) → List (ResultMessage × Bool) →
    List (String × Nat) × List ResEvent
  | clients, [] => (clients, [])
  | clients, (msg, writeOk) :: rest =>
      ((listenLoop (listenStep clients msg writeOk).1 rest).1,
       (listenStep clients msg writeOk).2
         ++ (listenLoop (listenStep clients msg writeOk).1 rest).2)

/-- Witness for claim C4 at a concrete registry and summary. -/
def sampleSummary : Summary :=
  { downloadID := "job-4", totalURLs := 2, successful := 1, failed := 1,
    failedURLs := ["http://b"], processingTime := "2s" }

/-- Result of json.Unmarshal on a delivery claimed from the conversion queue
in cmd/worker/main.go: a failure or a ConversionJob. -/
inductive JobMessage
  | malformed
  | parsed (job : ConversionJob)
deriving DecidableEq

/-- Externally visible actions of the worker on one claimed delivery. -/
inductive WkEvent
  | loggedJobError
  | rejectedNoRequeue
  | publishedSummary (summary : Summary)
  | loggedPublishError
  | acked
deriving DecidableEq

/-- Embedding of publishResults in cmd/worker/main.go lines 115 to 152: if
the exchange declaration fails, log and return without publishing; if the
marshal fails, log and return; otherwise publish, logging an error on a
failed publish. All failures are swallowed: the function reports nothing to
its caller. -/
def publishResults (declareOk marshalOk publishOk : Bool) (summary : Summary) :
    List WkEvent :=
  if declareOk then
    if marshalOk then
      if publishOk then [WkEvent.publishedSummary summary]
      else [WkEvent.loggedPublishError]
    else [WkEvent.loggedPublishError]
  else [WkEvent.loggedPublishError]

/-- Embedding of the body of the worker consumption loop, cmd/worker/main.go
lines 62 to 95, for one claimed delivery. On unmarshal failure: log, reject
without requeue, continue. On converter setup failure: log, reject without
requeue, continue. Otherwise run the conversion to its summary (exec stands
for the drained Convert call of the external executor), publish the summary
via publishResults, then acknowledge. -/
def workerStep (msg : JobMessage) (setupOk : Bool)
    (exec : ConversionJob → Summary)
    (declareOk marshalOk publishOk : Bool) : List WkEvent :=
  match msg with
  | JobMessage.malformed => [WkEvent.loggedJobError, WkEvent.rejectedNoRequeue]
  | JobMessage.parsed job =>
      if setupOk then
        publishResults declareOk marshalOk publishOk (exec job) ++ [WkEvent.acked]
      else
        [WkEvent.loggedJobError, WkEvent.rejectedNoRequeue]

/-- Environment of one claimed delivery: the unmarshal result and the
outcomes of converter setup, exchange declaration, marshal and publish. -/
structure WkDelivery where
  msg : JobMessage
  setupOk : Bool
  declareOk : Bool
  marshalOk : Bool
  publishOk : Bool
deriving DecidableEq

/-- The worker loop over a list of claimed deliveries, concatenating the
traces of the iterations, as the for range msgs goroutine does. -/
def workerLoop (exec : ConversionJob → Summary) : List WkDelivery → List WkEvent
  | [] => []
  | d :: rest =>
      workerStep d.msg d.setupOk exec d.declareOk d.marshalOk d.publishOk
        ++ workerLoop exec rest

/-- True when the trace holds a publishedSummary event. -/
def hasPublished : List WkEvent → Bool
  | [] => false
  | WkEvent.publishedSummary _ :: _ => true
  | _ :: rest => hasPublished rest

/-- True when the trace holds an acked event. -/
def hasAcked : List WkEvent → Bool
  | [] => false
  | WkEvent.acked :: _ => true
  | _ :: rest => hasAcked rest

/-- A sample job for concrete worker runs. -/
def sampleJob : ConversionJob :=
  { urls := ["http://a"], selector := "#x", downloadID := "job-5" }

/-- A sample executor: every URL succeeds. -/
def sampleExec : ConversionJob → Summary := fun job =>
  { downloadID := job.downloadID, totalURLs := job.urls.length,
    successful := job.urls.length, failed := 0, failedURLs := [],
    processingTime := "1s" }

/-- Drops a prefix from a character list; none when the list does not start
with the prefix. -/
def dropPrefixChars : List Char → List Char → Option (List Char)
  | [], rest => some rest
  | _ :: _, [] => none
  | p :: ps, c :: cs => if c = p then dropPrefixChars ps cs else none

/-- Semantics of strings.TrimPrefix: the string without the prefix when it
starts with it, the string unchanged otherwise. -/
def trimPrefixString (s pre : String) : String :=
  match dropPrefixChars pre.data s.data with
  | some rest => String.mk rest
  | none => s

/-- The route prefix stripped by downloadHandler. -/
def downloadPathPrefix : String := "/api/download/"

/-- Response of the download endpoint: a bad-request error, a not-found
status, or a zip archive response with its two headers and the archived
entries as pairs of relative path and file content. -/
inductive DlResponse
  | badRequest (msg : String)
  | notFoundResponse
  | zipResponse (contentType : String) (contentDisposition : String)
      (entries : List (String × String))
deriving DecidableEq

/-- Embedding of downloadHandler from server/server.go lines 191 to 233. The
filesystem is an association list from job identifier to the files of the
artifact directory, each as a pair of path relative to the directory and
content, as the filepath.Walk with filepath.Rel produces them. The handler
strips the route prefix from the request path; an empty identifier answers
bad request before any filesystem access; a missing directory answers not
found; otherwise the handler sets Content-Type application/zip and the
attachment Content-Disposition naming the identifier and streams the zip of
the directory files with relative paths preserved. -/
def downloadHandler (dirs : List (String × List (String × String)))
    (urlPath : String) : DlResponse :=
  let dlID := trimPrefixString urlPath downloadPathPrefix
  if dlID = "" then DlResponse.badRequest "Missing download ID"
  else
    match lookupAssoc dirs dlID with
    | none => DlResponse.notFoundResponse
    | some files =>
        DlResponse.zipResponse "application/zip"
          ("attachment; filename=\"" ++ dlID ++ ".zip\"") files

/-- A sample artifact store for the witness: one directory with one file. -/
def sampleDirs : List (String × List (String × String)) :=
  [("job-8", [("docs/a.md", "hello")])]

/-- The removed key is absent afterwards. -/
theorem lookupAssoc_removeAssoc {α : Type} (l : List (String × α)) (key : String) :
    lookupAssoc (removeAssoc l key) key = none := by
  induction l with
  | nil => rfl
  | cons p rest ih =>
      obtain ⟨k, v⟩ := p
      by_cases hk : k = key
      · simp [removeAssoc, hk, ih]
      · simp [removeAssoc, lookupAssoc, hk, ih]

/-- Claim C3: on the gateway ingress path the connection is registered under
the fresh job identifier strictly before the job is published to the queue;
a job is never published while its registration is absent from the trace. -/
theorem registration_precedes_publish (clients : List (String × Nat)) (conn : Nat)
    (msg : WsMessage) (downloadID : String) (publishOk : Bool) :
    publishedAfterRegistered []
      (conversionHandler clients conn msg downloadID publishOk).2 = true := by
  cases msg with
  | malformed => rfl
  | parsed req =>
      cases publishOk with
      | false => simp [conversionHandler, publishedAfterRegistered]
      | true => simp [conversionHandler, publishedAfterRegistered]

/-- Counterexample to claim C1: a submission that parses but has an empty URL
list and an empty selector is not rejected: the handler registers the
connection, publishes the job, sends the acknowledgment, and sends no error
of either kind. -/
theorem gateway_accepts_empty_urls_and_selector :
    conversionHandler [] 0 (WsMessage.parsed { urls := [], selector := "" }) "job-1" true
      = ([("job-1", 0)],
         [GwEvent.registered "job-1",
          GwEvent.published { urls := [], selector := "", downloadID := "job-1" },
          GwEvent.sentAck (ackMessage "job-1")])
    ∧ lookupAssoc [(("job-1" : String), 0)] "job-1" = some 0
    ∧ (conversionHandler [] 0 (WsMessage.parsed { urls := [], selector := "" })
        "job-1" true).2.all
        (fun e => match e with
          | GwEvent.sentTextError _ => false
          | GwEvent.sentCloseError => false
          | _ => true) = true := by
  refine ⟨rfl, rfl, rfl⟩

/-- Claim C1 as amended: the gateway sends the invalid-format text error and
returns without registering or publishing exactly when the message fails to
unmarshal; a submission that parses, even with an empty URL list or empty
selector, is registered and published and acknowledged. -/
theorem gateway_rejects_only_unparseable_submission
    (clients : List (String × Nat)) (conn : Nat) (downloadID : String)
    (publishOk : Bool) (req : ConversionRequest) :
    conversionHandler clients conn WsMessage.malformed downloadID publishOk
      = (clients, [GwEvent.sentTextError "Error: Invalid request format"])
    ∧ (conversionHandler clients conn (WsMessage.parsed req) downloadID true).2
      = [GwEvent.registered downloadID,
         GwEvent.published
           { urls := req.urls, selector := req.selector, downloadID := downloadID },
         GwEvent.sentAck (ackMessage downloadID)] := by
  exact ⟨rfl, rfl⟩

/-- Counterexample to claim C2: when the publish fails, the handler sends a
close frame but the registry entry inserted before the publish attempt is
still present after the handler returns. -/
theorem registry_entry_survives_publish_failure :
    (conversionHandler [] 0
        (WsMessage.parsed { urls := ["http://a"], selector := "#x" }) "job-2" false)
      = ([("job-2", 0)], [GwEvent.registered "job-2", GwEvent.sentCloseError])
    ∧ lookupAssoc
        (conversionHandler [] 0
          (WsMessage.parsed { urls := ["http://a"], selector := "#x" })
          "job-2" false).1 "job-2" = some 0 := by
  refine ⟨rfl, rfl⟩

/-- Claim C2 as amended: on publish failure the gateway sends a close frame
to the client and publishes no job and sends no acknowledgment, but the
registry entry registered before the publish attempt persists: after the
handler returns, the registry still maps the job identifier to the
connection. -/
theorem publish_failure_error_and_entry_persists
    (clients : List (String × Nat)) (conn : Nat) (req : ConversionRequest)
    (downloadID : String) :
    (conversionHandler clients conn (WsMessage.parsed req) downloadID false).2
      = [GwEvent.registered downloadID, GwEvent.sentCloseError]
    ∧ lookupAssoc
        (conversionHandler clients conn (WsMessage.parsed req) downloadID false).1
        downloadID = some conn := by
  constructor
  · rfl
  · simp [conversionHandler, insertAssoc, lookupAssoc]

/-- Claim C9: after a successful enqueue the handler writes the
acknowledgment object, a JSON object with a log field and a level field;
its log field embeds the job identifier and is a human-readable status
string. -/
theorem ack_message_has_job_id_and_status
    (clients : List (String × Nat)) (conn : Nat) (req : ConversionRequest)
    (downloadID : String) :
    GwEvent.sentAck (ackMessage downloadID)
      ∈ (conversionHandler clients conn (WsMessage.parsed req) downloadID true).2
    ∧ (ackMessage downloadID).log
      = "Job successfully queued with ID: " ++ downloadID ++ ". Waiting for worker..."
    ∧ (ackMessage downloadID).level = "info" := by
  refine ⟨?_, rfl, rfl⟩
  simp [conversionHandler]

/-- Claim C4: when a summary arrives whose job identifier has a live
registration, the listener attempts delivery to that connection exactly once,
the trace is the write attempt followed by the removal, and the entry is
gone from the registry afterwards, whether or not the write succeeded. -/
theorem summary_delivered_once_then_removed
    (clients : List (String × Nat)) (summary : Summary) (conn : Nat)
    (writeOk : Bool) (h : lookupAssoc clients summary.downloadID = some conn) :
    countWrites summary.downloadID
        (listenStep clients (ResultMessage.parsed summary) writeOk).2 = 1
    ∧ (listenStep clients (ResultMessage.parsed summary) writeOk).2
      = [ResEvent.wroteCompletion summary.downloadID conn (finalResponse summary) writeOk,
         ResEvent.removedEntry summary.downloadID]
    ∧ lookupAssoc (listenStep clients (ResultMessage.parsed summary) writeOk).1
        summary.downloadID = none := by
  refine ⟨?_, ?_, ?_⟩ <;>
    simp [listenStep, h, countWrites, lookupAssoc_removeAssoc]

theorem summary_delivered_once_then_removed_check :
    lookupAssoc [(("job-4" : String), 7)] sampleSummary.downloadID = some 7
    ∧ (countWrites sampleSummary.downloadID
          (listenStep [("job-4", 7)] (ResultMessage.parsed sampleSummary) false).2 = 1
       ∧ (listenStep [("job-4", 7)] (ResultMessage.parsed sampleSummary) false).2
         = [ResEvent.wroteCompletion sampleSummary.downloadID 7
              (finalResponse sampleSummary) false,
            ResEvent.removedEntry sampleSummary.downloadID]
       ∧ lookupAssoc
           (listenStep [("job-4", 7)] (ResultMessage.parsed sampleSummary) false).1
           sampleSummary.downloadID = none) :=
  ⟨by decide,
   summary_delivered_once_then_removed [("job-4", 7)] sampleSummary 7 false (by decide)⟩

/-- Claim C7: a delivery whose payload does not unmarshal as a Summary makes
the listener log and continue: that iteration leaves the registry unchanged,
and the remaining deliveries are still processed exactly as they would be
from the same registry. -/
theorem malformed_summary_logged_loop_continues
    (clients : List (String × Nat)) (writeOk : Bool)
    (rest : List (ResultMessage × Bool)) :
    listenStep clients ResultMessage.malformed writeOk
      = (clients, [ResEvent.loggedUnmarshalError])
    ∧ (listenLoop clients ((ResultMessage.malformed, writeOk) :: rest)).1
      = (listenLoop clients rest).1
    ∧ (listenLoop clients ((ResultMessage.malformed, writeOk) :: rest)).2
      = ResEvent.loggedUnmarshalError :: (listenLoop clients rest).2 := by
  refine ⟨rfl, ?_, ?_⟩ <;> simp [listenLoop, listenStep]

/-- Counterexample to claim C5: when the results exchange declaration fails,
the worker logs the publish-path error, never publishes the summary of the
successfully executed job, and still acknowledges the message: the trace
holds an acknowledgment with no publication before it. -/
theorem worker_acks_despite_publish_failure :
    workerStep (JobMessage.parsed sampleJob) true sampleExec false true true
      = [WkEvent.loggedPublishError, WkEvent.acked]
    ∧ hasPublished
        (workerStep (JobMessage.parsed sampleJob) true sampleExec false true true)
      = false
    ∧ hasAcked
        (workerStep (JobMessage.parsed sampleJob) true sampleExec false true true)
      = true := by
  refine ⟨rfl, rfl, rfl⟩

/-- Claim C5 as amended: for every successfully executed job the
acknowledgment comes strictly after the publishResults call, and when that
call succeeds end to end the summary is published strictly before the
acknowledgment; but a failed publication is only logged and the message is
acknowledged anyway, so the acknowledgment is after the publish attempt, not
after a guaranteed publication. -/
theorem worker_publishes_before_ack (exec : ConversionJob → Summary)
    (job : ConversionJob) (declareOk marshalOk publishOk : Bool) :
    workerStep (JobMessage.parsed job) true exec declareOk marshalOk publishOk
      = publishResults declareOk marshalOk publishOk (exec job) ++ [WkEvent.acked]
    ∧ workerStep (JobMessage.parsed job) true exec true true true
      = [WkEvent.publishedSummary (exec job), WkEvent.acked] := by
  exact ⟨rfl, rfl⟩

/-- Claim C6: a claimed delivery whose payload fails to unmarshal as a job is
logged and rejected without requeue, and the loop proceeds to the remaining
deliveries exactly as it would without that message. -/
theorem malformed_job_rejected_no_requeue (exec : ConversionJob → Summary)
    (setupOk declareOk marshalOk publishOk : Bool) (rest : List WkDelivery) :
    workerLoop exec
        ({ msg := JobMessage.malformed, setupOk := setupOk, declareOk := declareOk,
           marshalOk := marshalOk, publishOk := publishOk } :: rest)
      = WkEvent.loggedJobError :: WkEvent.rejectedNoRequeue :: workerLoop exec rest := by
  simp [workerLoop, workerStep]

/-- Dropping a prefix from the list it prefixes leaves the remainder. -/
theorem dropPrefixChars_append (p rest : List Char) :
    dropPrefixChars p (p ++ rest) = some rest := by
  induction p with
  | nil => rfl
  | cons c cs ih => simp [dropPrefixChars, ih]

/-- TrimPrefix of a concatenation returns the suffix. -/
theorem trimPrefixString_append (pre suf : String) :
    trimPrefixString (pre ++ suf) pre = suf := by
  unfold trimPrefixString
  rw [String.data_append, dropPrefixChars_append]

/-- Claim C8: for a request path carrying a non-empty job identifier, the
endpoint answers not found when no artifact directory exists for it, and
otherwise answers the zip archive of the directory files with relative paths
preserved, Content-Type application/zip, and the attachment
Content-Disposition naming the identifier. -/
theorem download_response_by_directory_presence
    (dirs : List (String × List (String × String))) (jobId : String)
    (h : ¬ jobId = "") :
    (lookupAssoc dirs jobId = none →
      downloadHandler dirs (downloadPathPrefix ++ jobId) = DlResponse.notFoundResponse)
    ∧ (∀ files : List (String × String), lookupAssoc dirs jobId = some files →
      downloadHandler dirs (downloadPathPrefix ++ jobId)
        = DlResponse.zipResponse "application/zip"
            ("attachment; filename=\"" ++ jobId ++ ".zip\"") files) := by
  have htrim : trimPrefixString (downloadPathPrefix ++ jobId) downloadPathPrefix = jobId :=
    trimPrefixString_append downloadPathPrefix jobId
  constructor
  · intro hnone
    simp [downloadHandler, htrim, h, hnone]
  · intro files hsome
    simp [downloadHandler, htrim, h, hsome]

theorem download_response_by_directory_presence_check :
    (¬ ("job-8" : String) = "")
    ∧ ((lookupAssoc sampleDirs "job-8" = none →
         downloadHandler sampleDirs (downloadPathPrefix ++ "job-8")
           = DlResponse.notFoundResponse)
       ∧ (∀ files : List (String × String), lookupAssoc sampleDirs "job-8" = some files →
         downloadHandler sampleDirs (downloadPathPrefix ++ "job-8")
           = DlResponse.zipResponse "application/zip"
               ("attachment; filename=\"" ++ "job-8" ++ ".zip\"") files)) :=
  ⟨by decide, download_response_by_directory_presence sampleDirs "job-8" (by decide)⟩

/-- Claim C10: a request path that yields an empty identifier after the
prefix strip answers bad request for every filesystem state, so the
not-found and archive branches are never reached and no filesystem check
happens. -/
theorem empty_download_id_bad_request
    (dirs : List (String × List (String × String))) (urlPath : String)
    (h : trimPrefixString urlPath downloadPathPrefix = "") :
    downloadHandler dirs urlPath = DlResponse.badRequest "Missing download ID" := by
  simp [downloadHandler, h]

theorem empty_download_id_bad_request_check :
    trimPrefixString "/api/download/" downloadPathPrefix = ""
    ∧ downloadHandler sampleDirs "/api/download/"
        = DlResponse.badRequest "Missing download ID" :=
  ⟨by decide, empty_download_id_bad_request sampleDirs "/api/download/" (by decide)⟩

